import Mathlib

/-!
Verification of the message consumption and dispatch pipeline of the
autodoc-push repository (src/app/rabbit_processor.py, src/app/models.py,
src/database/models.py, src/database/controller.py).

Modelling conventions:
* Database rows are Lean structures; the database state is a `DB` record of
  lists of rows.  `DbController.get(id=i)` becomes a `find?` over the list
  (`scalars().first()` returns the first matching row or `None`), and
  `instance.update(...)` becomes replacement of the row with the same
  primary key.
* Timestamps are abstract ticks (`Int`); `datetime.now()` is a parameter
  `now` of the transition functions.
* The notification capability `send(chat_id, text)` is modelled by an oracle
  `sendOk : Int → String → Bool` telling whether a given send succeeds; each
  attempted call is recorded, and a failed call raises (`ProcErr.sendFailure`).
* Accessing an attribute on a `None` result of a `get` (the code does this
  when a referenced row is absent) raises `AttributeError`; this is modelled
  by `ProcErr.attrOnNone` naming the attribute whose access raises.
* aio_pika's `message.process()` context manager is modelled by `Finalize`:
  the message is positively acknowledged when the block exits normally, and
  rejected without requeue (`reject(requeue=False)`, the library default)
  when an exception escapes the block.
* pydantic v1 field validation is modelled with its lax validators:
  `int` fields accept integers, booleans (0/1) and integer strings (via
  Python `int(str)`); `bool` fields accept booleans, the integers 0/1 and
  the recognized boolean strings (case-insensitive); `str` fields accept
  strings and stringified numbers/booleans.  The JSON universe is what
  `ujson.loads` can produce, restricted to integer numbers (no floats
  appear in the message shapes); underscore digit grouping and non-ASCII
  digit forms of numeric strings are abstracted away.
-/

namespace AutodocPush

/-- Row of the `users` table (src/database/models.py, class User). -/
structure User where
  id : Int
  telegram_id : Int
  username : String
  role_id : Int
  is_deleted : Bool
deriving Repr, DecidableEq

/-- Row of the `orders` table (src/database/models.py, class Order).
`status_changed_at` is a nullable timestamp column. -/
structure Order where
  id : Int
  document_id : Int
  sender_id : Int
  receiver_id : Int
  status_id : Int
  created_at : Int
  status_changed_at : Option Int
deriving Repr, DecidableEq

/-- Row of the `cells` table (src/database/models.py, class Cell).
`order_id` is a nullable foreign key. -/
structure Cell where
  id : Int
  order_id : Option Int
  is_open : Bool
deriving Repr, DecidableEq

namespace OrderStatus

/-- OrderStatus.NEW (src/database/models.py). -/
def NEW : Int := 1

/-- OrderStatus.PROCESSING (src/database/models.py). -/
def PROCESSING : Int := 2

/-- OrderStatus.READY (src/database/models.py). -/
def READY : Int := 3

/-- OrderStatus.DONE (src/database/models.py). -/
def DONE : Int := 4

/-- OrderStatus.DECLINED (src/database/models.py). -/
def DECLINED : Int := 5

/-- `OrderStatus.get_str_by_id` (src/database/models.py): a Python dict
literal queried with `.get(order_id)`, which yields `None` on a missing
key.  Modelled as an association-list lookup. -/
def get_str_by_id (order_id : Int) : Option String :=
  ([ (1, "Новая"),
     (2, "Обрабатывается"),
     (3, "Готова к выдачи"),
     (4, "Выполнена"),
     (5, "Отменена") ] : List (Int × String)).lookup order_id

end OrderStatus

/-- The persisted state visible to the pipeline: the three tables it
reads or writes. -/
structure DB where
  users : List User
  orders : List Order
  cells : List Cell
deriving Repr, DecidableEq

/-- Generic `DbController.get(id=i)` (src/database/controller.py): a
filtered select whose first result is returned, `none` when no row
matches. -/
def findBy {α : Type} (key : α → Int) (l : List α) (i : Int) : Option α :=
  l.find? (fun x => key x == i)

/-- Generic write-back of `DbController.update` at the row level: the row
with the instance's primary key is replaced by the mutated instance. -/
def replaceBy {α : Type} (key : α → Int) (l : List α) (a : α) : List α :=
  l.map (fun x => if key x == key a then a else x)

def DB.cellById (db : DB) (i : Int) : Option Cell :=
  findBy Cell.id db.cells i

def DB.orderById (db : DB) (i : Int) : Option Order :=
  findBy Order.id db.orders i

/-- `Order.get(id=cell.order_id)` where `cell.order_id` may be NULL: an
`id = NULL` filter matches no row, so the result is `none`. -/
def DB.orderByOptId (db : DB) : Option Int → Option Order
  | none => none
  | some i => db.orderById i

def DB.userById (db : DB) (i : Int) : Option User :=
  findBy User.id db.users i

def DB.setCell (db : DB) (c : Cell) : DB :=
  { db with cells := replaceBy Cell.id db.cells c }

def DB.setOrder (db : DB) (o : Order) : DB :=
  { db with orders := replaceBy Order.id db.orders o }

/-- Validated message of shape `BasicPush` (src/app/models.py). -/
structure BasicPush where
  telegram_user_id : Int
  message : String
  is_cell_message : Bool
deriving Repr, DecidableEq

/-- Validated message of shape `CellMessage` (src/app/models.py), the
fields of `BasicPush` plus `cell_id` and `is_sending`. -/
structure CellMessage where
  telegram_user_id : Int
  message : String
  is_cell_message : Bool
  cell_id : Int
  is_sending : Bool
deriving Repr, DecidableEq

/-- An exception escaping the processing of one message. -/
inductive ProcErr where
  /-- `AttributeError`: an attribute was read on the `None` returned by a
  `get` whose row was absent; the argument names the attribute. -/
  | attrOnNone (attr : String)
  /-- The notification send to the given chat with the given text raised. -/
  | sendFailure (chatId : Int) (text : String)
deriving Repr, DecidableEq

/-- A persistence read issued by the pipeline (which table, which key). -/
inductive ReadEv where
  | cell (i : Int)
  | order (i : Option Int)
  | user (i : Int)
deriving Repr, DecidableEq

/-- Observable outcome of processing one validated message: the database
after the run, the persistence reads issued, the notification sends
attempted (chat id, text) in order, and the exception, if one escaped. -/
structure Effects where
  db : DB
  reads : List ReadEv
  sends : List (Int × String)
  err : Option ProcErr
deriving Repr, DecidableEq

/-- How aio_pika's `message.process()` context manager finalizes the
delivery: `ack` on normal exit of the block, `reject requeue` (with
`requeue = false` by default) when an exception escapes the block. -/
inductive Finalize where
  | ack
  | reject (requeue : Bool)
deriving Repr, DecidableEq

/-- The f-string `f'Статус заявки №{order.id} изменен на {text}'` of
`RabbitProcessor.process_cell_push`. -/
def statusMessage (orderId : Int) (text : String) : String :=
  "Статус заявки №" ++ toString orderId ++ " изменен на " ++ text

/-- Python f-string interpolation of an optional string: `None` prints as
the literal string "None". -/
def pyStrOfOpt : Option String → String
  | some s => s
  | none => "None"

/-- `RabbitProcessor.process_push` (src/app/rabbit_processor.py): one call
of the sender function with the push's user id and message text. -/
def process_push (sendOk : Int → String → Bool) (db : DB) (push : BasicPush) :
    Effects :=
  if sendOk push.telegram_user_id push.message then
    { db := db, reads := [], sends := [(push.telegram_user_id, push.message)],
      err := none }
  else
    { db := db, reads := [], sends := [(push.telegram_user_id, push.message)],
      err := some (.sendFailure push.telegram_user_id push.message) }

/-- `RabbitProcessor.process_cell_push` (src/app/rabbit_processor.py).
The source fetches the cell, the order it references, then the receiver
and sender users; a `None` result only raises when one of its attributes
is read (so a missing user raises only at the send step, after the
database writes).  If `is_sending` is false the cell is freed
(`order_id=None, is_open=True`); the order is then updated with the next
status and `status_changed_at=now`; finally the status message is sent to
the receiver's and then the sender's telegram id, sequentially, each
failed call raising immediately. -/
def process_cell_push (sendOk : Int → String → Bool) (now : Int) (db : DB)
    (push : CellMessage) : Effects :=
  match db.cellById push.cell_id with
  | none =>
      { db := db, reads := [.cell push.cell_id], sends := [],
        err := some (.attrOnNone "order_id") }
  | some cell =>
    match db.orderByOptId cell.order_id with
    | none =>
        { db := db, reads := [.cell push.cell_id, .order cell.order_id],
          sends := [], err := some (.attrOnNone "receiver_id") }
    | some order =>
      let receiver? := db.userById order.receiver_id
      let sender? := db.userById order.sender_id
      let reads : List ReadEv :=
        [.cell push.cell_id, .order cell.order_id,
         .user order.receiver_id, .user order.sender_id]
      let next_status : Int :=
        if push.is_sending then OrderStatus.READY else OrderStatus.DONE
      let db1 : DB :=
        if push.is_sending then db
        else db.setCell { cell with order_id := none, is_open := true }
      let db2 : DB :=
        db1.setOrder
          { order with status_id := next_status, status_changed_at := some now }
      let text : String :=
        statusMessage order.id (pyStrOfOpt (OrderStatus.get_str_by_id next_status))
      match receiver? with
      | none =>
          { db := db2, reads := reads, sends := [],
            err := some (.attrOnNone "telegram_id") }
      | some receiver =>
        if sendOk receiver.telegram_id text then
          match sender? with
          | none =>
              { db := db2, reads := reads,
                sends := [(receiver.telegram_id, text)],
                err := some (.attrOnNone "telegram_id") }
          | some sender =>
            if sendOk sender.telegram_id text then
              { db := db2, reads := reads,
                sends := [(receiver.telegram_id, text),
                          (sender.telegram_id, text)],
                err := none }
            else
              { db := db2, reads := reads,
                sends := [(receiver.telegram_id, text),
                          (sender.telegram_id, text)],
                err := some (.sendFailure sender.telegram_id text) }
        else
          { db := db2, reads := reads, sends := [(receiver.telegram_id, text)],
            err := some (.sendFailure receiver.telegram_id text) }

/-- JSON values as produced by `ujson.loads` (numbers restricted to
integers, the only numeric fields the message shapes use). -/
inductive Json where
  | null
  | bool (b : Bool)
  | int (n : Int)
  | str (s : String)
  | arr (xs : List Json)
  | obj (fields : List (String × Json))

/-- Key lookup in a decoded JSON object: Python dict semantics, the last
binding of a duplicated key wins. -/
def getKey (fields : List (String × Json)) (k : String) : Option Json :=
  fields.reverse.lookup k

/-- Field lookup on a JSON value: only objects have fields. -/
def Json.getField : Json → String → Option Json
  | .obj fields, k => getKey fields k
  | _, _ => none

/-- A nonempty all-digit character list read as a natural number. -/
def digitsToNat? (cs : List Char) : Option Nat :=
  if cs.isEmpty then none
  else if cs.all (fun c => c.isDigit) then
    some (cs.foldl (fun n c => 10 * n + (c.toNat - 48)) 0)
  else none

/-- The ASCII whitespace characters Python `int(str)` strips from both
ends (Unicode whitespace is abstracted away). -/
def isPySpace (c : Char) : Bool :=
  c = ' ' || c = '\t' || c = '\n' || c = '\r' || c = '\x0b' || c = '\x0c'

/-- Python `int(str)` on decimal strings: surrounding whitespace is
ignored and an optional single sign precedes a nonempty digit string;
anything else raises `ValueError`.  (Underscore digit grouping and
non-ASCII digits, which Python also accepts, are abstracted away.) -/
def pyIntOfStr? (s : String) : Option Int :=
  match ((s.toList.dropWhile isPySpace).reverse.dropWhile isPySpace).reverse with
  | [] => none
  | c :: cs =>
    if c = '-' then (digitsToNat? cs).map (fun n => -(n : Int))
    else if c = '+' then (digitsToNat? cs).map (fun n => (n : Int))
    else (digitsToNat? (c :: cs)).map (fun n => (n : Int))

/-- pydantic v1 `int_validator` over a JSON value: a non-boolean integer
passes through, everything else goes through Python `int(...)` — a
boolean coerces to 0/1, a numeric string is parsed, and `null`, arrays
and objects raise. -/
def pyIntOfJson? : Json → Option Int
  | .int n => some n
  | .bool b => some (if b then 1 else 0)
  | .str s => pyIntOfStr? s
  | _ => none

/-- The lowercased values pydantic v1's `bool_validator` accepts as true
(`BOOL_TRUE` minus the integer 1, handled separately). -/
def boolTrueStrs : List String := ["1", "on", "t", "true", "y", "yes"]

/-- The lowercased values pydantic v1's `bool_validator` accepts as false
(`BOOL_FALSE` minus the integer 0, handled separately). -/
def boolFalseStrs : List String := ["0", "off", "f", "false", "n", "no"]

/-- Python `str.lower()` on ASCII letters (Unicode lowering abstracted
away). -/
def lowerAscii (s : String) : String :=
  String.mk (s.toList.map Char.toLower)

/-- pydantic v1 `bool_validator` over a JSON value: a boolean passes
through; the integers 1 and 0 coerce; a string is lowercased and matched
against the recognized boolean strings; everything else raises. -/
def pyBoolOfJson? : Json → Option Bool
  | .bool b => some b
  | .int n => if n = 1 then some true else if n = 0 then some false else none
  | .str s =>
    if boolTrueStrs.contains (lowerAscii s) then some true
    else if boolFalseStrs.contains (lowerAscii s) then some false
    else none
  | _ => none

/-- A required pydantic field of declared type `int`, validated with the
lax `int_validator`. -/
def reqInt (j : Json) (k : String) : Except String Int :=
  match j.getField k with
  | some v =>
    match pyIntOfJson? v with
    | some n => .ok n
    | none => .error (k ++ ": value is not a valid integer")
  | none => .error (k ++ ": field required")

/-- A required pydantic field of declared type `str`, validated with the
lax v1 `str_validator`: strings pass through, numbers and booleans are
stringified (`str(7)`, `str(True)`), `null`, arrays and objects raise. -/
def reqStr (j : Json) (k : String) : Except String String :=
  match j.getField k with
  | some (.str s) => .ok s
  | some (.int n) => .ok (toString n)
  | some (.bool b) => .ok (if b then "True" else "False")
  | some _ => .error (k ++ ": str type expected")
  | none => .error (k ++ ": field required")

/-- A required pydantic field of declared type `bool`, validated with the
lax `bool_validator`. -/
def reqBool (j : Json) (k : String) : Except String Bool :=
  match j.getField k with
  | some v =>
    match pyBoolOfJson? v with
    | some b => .ok b
    | none => .error (k ++ ": value could not be parsed to a boolean")
  | none => .error (k ++ ": field required")

/-- An optional pydantic field of declared type `bool` with a default: an
absent field takes the default, a present value goes through the lax
`bool_validator` and still errors when it fails. -/
def optBool (j : Json) (k : String) (dflt : Bool) : Except String Bool :=
  match j.getField k with
  | some v =>
    match pyBoolOfJson? v with
    | some b => .ok b
    | none => .error (k ++ ": value could not be parsed to a boolean")
  | none => .ok dflt

/-- `BasicPush.parse_obj` (src/app/models.py): requires
`telegram_user_id: int` and `message: str`; `is_cell_message: bool`
defaults to false.  A non-object input is rejected outright. -/
def BasicPush.parse_obj (j : Json) : Except String BasicPush :=
  match j with
  | .obj _ =>
    match reqInt j "telegram_user_id" with
    | .error e => .error e
    | .ok t =>
      match reqStr j "message" with
      | .error e => .error e
      | .ok m =>
        match optBool j "is_cell_message" false with
        | .error e => .error e
        | .ok c => .ok { telegram_user_id := t, message := m, is_cell_message := c }
  | _ => .error "value is not a valid dict"

/-- `CellMessage.parse_obj` (src/app/models.py): the `BasicPush` fields
plus required `cell_id: int` and `is_sending: bool`. -/
def CellMessage.parse_obj (j : Json) : Except String CellMessage :=
  match j with
  | .obj _ =>
    match reqInt j "telegram_user_id" with
    | .error e => .error e
    | .ok t =>
      match reqStr j "message" with
      | .error e => .error e
      | .ok m =>
        match optBool j "is_cell_message" false with
        | .error e => .error e
        | .ok c =>
          match reqInt j "cell_id" with
          | .error e => .error e
          | .ok ci =>
            match reqBool j "is_sending" with
            | .error e => .error e
            | .ok s =>
              .ok { telegram_user_id := t, message := m, is_cell_message := c,
                    cell_id := ci, is_sending := s }
  | _ => .error "value is not a valid dict"

/-- A validated message: either shape. -/
inductive Push where
  | basic (p : BasicPush)
  | cellMsg (c : CellMessage)
deriving Repr, DecidableEq

/-- The validation step of `RabbitProcessor.process_message`
(src/app/rabbit_processor.py): parse as `BasicPush`; when its
`is_cell_message` flag is set, re-parse the same JSON object as
`CellMessage`, and a failure of that second parse rejects the whole
message. -/
def validate (j : Json) : Except String Push :=
  match BasicPush.parse_obj j with
  | .error e => .error e
  | .ok p =>
    if p.is_cell_message then
      match CellMessage.parse_obj j with
      | .error e => .error e
      | .ok c => .ok (.cellMsg c)
    else
      .ok (.basic p)

/-- A delivered message body at the decode boundary: either raw bytes that
`ujson.loads` rejects with `ValueError`, or bytes decoding to a JSON
value. -/
inductive Body where
  | invalid
  | valid (j : Json)

/-- Finalization performed by `async with message.process()` when the
block ends: ack on normal exit, reject without requeue when an exception
escaped. -/
def finalizeOf (e : Effects) : Finalize :=
  if e.err.isSome then .reject false else .ack

/-- `RabbitProcessor.process_message` (src/app/rabbit_processor.py) over
one delivered body: decode errors and validation errors are caught,
logged and swallowed (the block exits normally, so the message is
acked); a validated message is dispatched on its `is_cell_message` flag,
and any exception escaping dispatch reaches `message.process()`, which
rejects the delivery without requeue. -/
def process_message (sendOk : Int → String → Bool) (now : Int) (db : DB)
    (body : Body) : Effects × Finalize :=
  match body with
  | .invalid => ({ db := db, reads := [], sends := [], err := none }, .ack)
  | .valid j =>
    match validate j with
    | .error _ => ({ db := db, reads := [], sends := [], err := none }, .ack)
    | .ok (.basic p) =>
        let e := process_push sendOk db p
        (e, finalizeOf e)
    | .ok (.cellMsg c) =>
        let e := process_cell_push sendOk now db c
        (e, finalizeOf e)

/-- One attribute assignment of `DbController.update`
(src/database/controller.py): `self.__setattr__(k, v)` on an existing
attribute replaces its value and never changes the set of attributes. -/
def setAttr {V : Type} (d : List (String × V)) (k : String) (v : V) :
    List (String × V) :=
  d.map (fun p => if p.1 = k then (p.1, v) else p)

/-- `DbController.update` (src/database/controller.py) at the attribute
level: the instance's `__dict__` is an association of attribute names to
values; for each keyword argument in order, the value is assigned only
when the name is an existing attribute, and unknown names are skipped
silently. -/
def DbController.update {V : Type} (inst kwargs : List (String × V)) :
    List (String × V) :=
  kwargs.foldl
    (fun d kv => if d.any (fun p => p.1 = kv.1) then setAttr d kv.1 kv.2 else d)
    inst

/-! Concrete data for the worked scenarios of the specification
(Scenario A–D): Cell 7 assigned to Order 99, whose receiver is User 1
(chat 11) and sender User 2 (chat 22). -/

/-- A send oracle under which every notification call succeeds. -/
def sendAllOk : Int → String → Bool := fun _ _ => true

/-- A send oracle under which the send to chat 11 (the receiver) raises
and every other send succeeds. -/
def sendFailAt11 : Int → String → Bool := fun c _ => c != 11

def recvUser : User :=
  { id := 1, telegram_id := 11, username := "receiver", role_id := 2,
    is_deleted := false }

def sendUser : User :=
  { id := 2, telegram_id := 22, username := "sender", role_id := 2,
    is_deleted := false }

def order99 : Order :=
  { id := 99, document_id := 5, sender_id := 2, receiver_id := 1,
    status_id := OrderStatus.PROCESSING, created_at := 0,
    status_changed_at := none }

def cell7 : Cell := { id := 7, order_id := some 99, is_open := false }

def dbB : DB :=
  { users := [recvUser, sendUser], orders := [order99], cells := [cell7] }

/-- Scenario B's message: a cell message for cell 7 with `is_sending=true`. -/
def pushB : CellMessage :=
  { telegram_user_id := 1, message := "x", is_cell_message := true,
    cell_id := 7, is_sending := true }

/-- Scenario C's message: same as B with `is_sending=false`. -/
def pushC : CellMessage :=
  { telegram_user_id := 1, message := "x", is_cell_message := true,
    cell_id := 7, is_sending := false }

/-- An order already in status READY, its `status_changed_at` never set. -/
def orderReady : Order := { order99 with status_id := OrderStatus.READY }

def dbReady : DB :=
  { users := [recvUser, sendUser], orders := [orderReady], cells := [cell7] }

/-- Scenario D's cell: cell 7 with no assigned order. -/
def cell7Free : Cell := { id := 7, order_id := none, is_open := false }

def dbD : DB :=
  { users := [recvUser, sendUser], orders := [order99], cells := [cell7Free] }

def dbEmpty : DB := { users := [], orders := [], cells := [] }

/-- A decoded cell-message body (the JSON of Scenario B). -/
def bodyCellB : Body := Body.valid (Json.obj
  [("telegram_user_id", Json.int 1), ("message", Json.str "x"),
   ("is_cell_message", Json.bool true), ("cell_id", Json.int 7),
   ("is_sending", Json.bool true)])

/-- A cell-message JSON object whose `cell_id` field is absent. -/
def fieldsNoCellId : List (String × Json) :=
  [("telegram_user_id", Json.int 1), ("message", Json.str "x"),
   ("is_cell_message", Json.bool true)]

/-- The JSON object of Scenario A. -/
def fieldsBasic : List (String × Json) :=
  [("telegram_user_id", Json.int 42), ("message", Json.str "hi")]

/-- A cell-message JSON object whose `cell_id` is a numeric string and
whose `is_sending` is the integer 1 — mistyped relative to the declared
`int`/`bool` shapes, but coercible. -/
def fieldsCoerced : List (String × Json) :=
  [("telegram_user_id", Json.int 1), ("message", Json.str "x"),
   ("is_cell_message", Json.bool true), ("cell_id", Json.str "7"),
   ("is_sending", Json.int 1)]

/-- A cell-message JSON object whose `is_sending` value fails even the
lax boolean validator. -/
def fieldsBadSending : List (String × Json) :=
  [("telegram_user_id", Json.int 1), ("message", Json.str "x"),
   ("is_cell_message", Json.bool true), ("cell_id", Json.int 7),
   ("is_sending", Json.str "maybe")]

/-! Helper lemmas about the generic row store. -/

theorem findBy_key {α : Type} {key : α → Int} {l : List α} {i : Int} {a : α}
    (h : findBy key l i = some a) : key a = i := by
  simpa using List.find?_some h

theorem replaceBy_cons {α : Type} (key : α → Int) (x : α) (xs : List α) (a : α) :
    replaceBy key (x :: xs) a =
      (if key x == key a then a else x) :: replaceBy key xs a := rfl

theorem findBy_cons {α : Type} (key : α → Int) (x : α) (xs : List α) (i : Int) :
    findBy key (x :: xs) i = if key x == i then some x else findBy key xs i := by
  cases h : key x == i <;> simp [findBy, List.find?, h]

theorem findBy_replaceBy_self {α : Type} (key : α → Int) (l : List α) (a : α)
    (i : Int) (hi : key a = i) (h : (findBy key l i).isSome) :
    findBy key (replaceBy key l a) i = some a := by
  induction l with
  | nil => simp [findBy] at h
  | cons x xs ih =>
    rw [findBy_cons] at h
    rw [replaceBy_cons]
    by_cases hx : key x = i
    · rw [if_pos (show (key x == key a) = true from beq_iff_eq.mpr (by rw [hx, hi]))]
      rw [findBy_cons, if_pos (beq_iff_eq.mpr hi)]
    · have hxa : ¬((key x == key a) = true) := fun hb => hx (by rw [beq_iff_eq.mp hb, hi])
      have hxi : ¬((key x == i) = true) := fun hb => hx (beq_iff_eq.mp hb)
      rw [if_neg hxa, findBy_cons, if_neg hxi]
      rw [if_neg hxi] at h
      exact ih h

theorem findBy_replaceBy_ne {α : Type} (key : α → Int) (l : List α) (a : α)
    (i : Int) (hi : key a ≠ i) :
    findBy key (replaceBy key l a) i = findBy key l i := by
  induction l with
  | nil => rfl
  | cons x xs ih =>
    rw [replaceBy_cons]
    by_cases hx : key x = key a
    · have hxi : ¬((key x == i) = true) := fun hb => hi (by rw [← hx, beq_iff_eq.mp hb])
      have hai : ¬((key a == i) = true) := fun hb => hi (beq_iff_eq.mp hb)
      rw [if_pos (beq_iff_eq.mpr hx), findBy_cons, if_neg hai, findBy_cons,
        if_neg hxi]
      exact ih
    · rw [if_neg (show ¬((key x == key a) = true) from fun hb => hx (beq_iff_eq.mp hb))]
      rw [findBy_cons, findBy_cons]
      by_cases hxi : (key x == i) = true
      · rw [if_pos hxi, if_pos hxi]
      · rw [if_neg hxi, if_neg hxi]
        exact ih

/-- A successful fetch through `DB.orderByOptId` pins down the optional
foreign key and shows the row is present under its own id. -/
theorem orderByOptId_some {db : DB} {co : Option Int} {order : Order}
    (ho : db.orderByOptId co = some order) :
    co = some order.id ∧ (findBy Order.id db.orders order.id).isSome := by
  cases hco : co with
  | none => rw [hco] at ho; exact absurd ho (by simp [DB.orderByOptId])
  | some oid =>
    rw [hco] at ho
    have ho2 : findBy Order.id db.orders oid = some order := ho
    have hkey : order.id = oid := findBy_key ho2
    exact ⟨by rw [hkey], by rw [hkey, ho2]; rfl⟩

/-- Once the cell and order fetches succeed, the database reached after
`process_cell_push` does not depend on the user fetches or the send
outcomes: the cell is freed only when `is_sending` is false, and the
order row is rewritten with the next status and the new timestamp. -/
theorem process_cell_push_db (sendOk : Int → String → Bool) (now : Int)
    (db : DB) (push : CellMessage) (cell : Cell) (order : Order)
    (hc : db.cellById push.cell_id = some cell)
    (ho : db.orderByOptId cell.order_id = some order) :
    (process_cell_push sendOk now db push).db =
      ((if push.is_sending then db
        else db.setCell { cell with order_id := none, is_open := true }).setOrder
        { order with
          status_id := if push.is_sending then OrderStatus.READY
                       else OrderStatus.DONE,
          status_changed_at := some now }) := by
  simp only [process_cell_push, hc, ho]
  repeat' split
  all_goals rfl

/-! Helper lemmas about the attribute-level model of `DbController.update`. -/

theorem setAttr_cons {V : Type} (p : String × V) (ps : List (String × V))
    (k : String) (v : V) :
    setAttr (p :: ps) k v = (if p.1 = k then (p.1, v) else p) :: setAttr ps k v := rfl

theorem setAttr_keys {V : Type} (d : List (String × V)) (k : String) (v : V) :
    (setAttr d k v).map Prod.fst = d.map Prod.fst := by
  induction d with
  | nil => rfl
  | cons p ps ih =>
    rw [setAttr_cons, List.map_cons, List.map_cons, ih]
    by_cases hp : p.1 = k
    · rw [if_pos hp]
    · rw [if_neg hp]

theorem lookup_setAttr_ne {V : Type} (d : List (String × V)) (k f : String)
    (v : V) (h : f ≠ k) : (setAttr d k v).lookup f = d.lookup f := by
  induction d with
  | nil => rfl
  | cons p ps ih =>
    rw [setAttr_cons]
    by_cases hp : p.1 = k
    · rw [if_pos hp]
      have hf : (f == p.1) = false := beq_eq_false_iff_ne.mpr (hp ▸ h)
      simp [List.lookup, hf, ih]
    · rw [if_neg hp]
      cases hf : (f == p.1) <;> simp [List.lookup, hf, ih]

theorem lookup_setAttr_self {V : Type} (d : List (String × V)) (f : String)
    (v : V) (h : f ∈ d.map Prod.fst) : (setAttr d f v).lookup f = some v := by
  induction d with
  | nil => simp at h
  | cons p ps ih =>
    rw [setAttr_cons]
    by_cases hp : p.1 = f
    · rw [if_pos hp]
      have hf : (f == p.1) = true := beq_iff_eq.mpr hp.symm
      simp [List.lookup, hf]
    · rw [if_neg hp]
      have hf : (f == p.1) = false := beq_eq_false_iff_ne.mpr (fun he => hp he.symm)
      have hmem : f ∈ ps.map Prod.fst := by
        rcases List.mem_map.mp h with ⟨q, hq, hfst⟩
        rcases List.mem_cons.mp hq with rfl | hq2
        · exact absurd hfst hp
        · exact List.mem_map.mpr ⟨q, hq2, hfst⟩
      simp [List.lookup, hf, ih hmem]

theorem any_fst_eq {V : Type} (d : List (String × V)) (k : String) :
    (d.any fun p => p.1 = k) = true ↔ k ∈ d.map Prod.fst := by
  rw [List.any_eq_true]
  constructor
  · rintro ⟨p, hp, he⟩
    exact List.mem_map.mpr ⟨p, hp, (of_decide_eq_true he).symm ▸ rfl⟩
  · rintro hmem
    rcases List.mem_map.mp hmem with ⟨p, hp, hfst⟩
    exact ⟨p, hp, decide_eq_true (hfst ▸ rfl)⟩

theorem update_cons {V : Type} (inst : List (String × V)) (kv : String × V)
    (kws : List (String × V)) :
    DbController.update inst (kv :: kws) =
      DbController.update
        (if inst.any (fun p => p.1 = kv.1) then setAttr inst kv.1 kv.2 else inst)
        kws := rfl

theorem step_keys {V : Type} (inst : List (String × V)) (kv : String × V) :
    ((if inst.any (fun p => p.1 = kv.1) then setAttr inst kv.1 kv.2 else inst).map
      Prod.fst) = inst.map Prod.fst := by
  by_cases h : (inst.any fun p => p.1 = kv.1) = true
  · rw [if_pos h, setAttr_keys]
  · rw [if_neg h]

theorem update_keys {V : Type} (kwargs : List (String × V)) :
    ∀ inst : List (String × V),
      (DbController.update inst kwargs).map Prod.fst = inst.map Prod.fst := by
  induction kwargs with
  | nil => intro inst; rfl
  | cons kv kws ih =>
    intro inst
    rw [update_cons, ih, step_keys]

theorem update_lookup_of_not_mem {V : Type} (kwargs : List (String × V)) :
    ∀ (inst : List (String × V)) (f : String), f ∉ kwargs.map Prod.fst →
      (DbController.update inst kwargs).lookup f = inst.lookup f := by
  induction kwargs with
  | nil => intro inst f _; rfl
  | cons kv kws ih =>
    intro inst f h
    rw [List.map_cons, List.mem_cons] at h
    push_neg at h
    obtain ⟨hf, hmem⟩ := h
    rw [update_cons, ih _ _ hmem]
    by_cases hany : (inst.any fun p => p.1 = kv.1) = true
    · rw [if_pos hany, lookup_setAttr_ne _ _ _ _ hf]
    · rw [if_neg hany]

theorem update_lookup_of_mem {V : Type} (kwargs : List (String × V)) :
    ∀ (inst : List (String × V)) (f : String) (v : V),
      (kwargs.map Prod.fst).Nodup → (f, v) ∈ kwargs → f ∈ inst.map Prod.fst →
      (DbController.update inst kwargs).lookup f = some v := by
  induction kwargs with
  | nil => intro inst f v _ hmem _; simp at hmem
  | cons kv kws ih =>
    intro inst f v hnd hmem hin
    rw [List.map_cons, List.nodup_cons] at hnd
    obtain ⟨hnotin, hnd2⟩ := hnd
    rcases List.mem_cons.mp hmem with heq | hmem2
    · rw [update_cons]
      have hkv1 : kv.1 = f := by rw [← heq]
      have hany : (inst.any fun p => p.1 = kv.1) = true := by
        rw [any_fst_eq, hkv1]
        exact hin
      rw [if_pos hany]
      have hnotf : f ∉ kws.map Prod.fst := hkv1 ▸ hnotin
      rw [update_lookup_of_not_mem _ _ _ hnotf, hkv1]
      have hkv2 : kv.2 = v := by rw [← heq]
      rw [hkv2]
      exact lookup_setAttr_self inst f v hin
    · rw [update_cons]
      refine ih _ f v hnd2 hmem2 ?_
      rw [step_keys]
      exact hin

/-- C1: for every cell message with `is_sending=true` whose cell, order,
receiver and sender all resolve, and whose sends succeed, `process_cell_push`
rewrites the order's `status_id` to READY (3) and performs exactly two sends
of the text `Статус заявки №{order.id} изменен на Готова к выдачи`, receiver
first, then sender. -/
theorem cell_push_sending_sets_ready_and_notifies
    (sendOk : Int → String → Bool) (now : Int) (db : DB) (push : CellMessage)
    (cell : Cell) (order : Order) (receiver sender : User)
    (hc : db.cellById push.cell_id = some cell)
    (ho : db.orderByOptId cell.order_id = some order)
    (hr : db.userById order.receiver_id = some receiver)
    (hs : db.userById order.sender_id = some sender)
    (hflag : push.is_sending = true)
    (hsend : ∀ c t, sendOk c t = true) :
    (process_cell_push sendOk now db push).sends =
      [(receiver.telegram_id, statusMessage order.id "Готова к выдачи"),
       (sender.telegram_id, statusMessage order.id "Готова к выдачи")] ∧
    (process_cell_push sendOk now db push).db.orderById order.id =
      some { order with status_id := OrderStatus.READY,
                        status_changed_at := some now } ∧
    (process_cell_push sendOk now db push).err = none := by
  obtain ⟨hco, hsome⟩ := orderByOptId_some ho
  simp only [process_cell_push, hc, ho, hr, hs, hflag, hsend, if_true]
  refine ⟨rfl, ?_, trivial⟩
  simp only [DB.setOrder, DB.orderById]
  exact findBy_replaceBy_self Order.id db.orders _ order.id rfl hsome

/-- C1 witness: Scenario B on the concrete database, including that the
formatted text is exactly the claimed string for order 99. -/
theorem cell_push_sending_sets_ready_and_notifies_witness :
    statusMessage 99 "Готова к выдачи" =
      "Статус заявки №99 изменен на Готова к выдачи" ∧
    ((process_cell_push sendAllOk 5 dbB pushB).sends =
      [(recvUser.telegram_id, statusMessage order99.id "Готова к выдачи"),
       (sendUser.telegram_id, statusMessage order99.id "Готова к выдачи")] ∧
    (process_cell_push sendAllOk 5 dbB pushB).db.orderById order99.id =
      some { order99 with status_id := OrderStatus.READY,
                          status_changed_at := some 5 } ∧
    (process_cell_push sendAllOk 5 dbB pushB).err = none) :=
  ⟨rfl, cell_push_sending_sets_ready_and_notifies sendAllOk 5 dbB pushB cell7
    order99 recvUser sendUser rfl rfl rfl rfl rfl (fun _ _ => rfl)⟩

/-- C2: for every cell message whose cell and order resolve, the cell row
is rewritten with `order_id=null` and `is_open=true` exactly when
`is_sending` is false; when `is_sending` is true the cells table is left
completely unchanged. -/
theorem cell_push_frees_cell_iff_not_sending
    (sendOk : Int → String → Bool) (now : Int) (db : DB)
    (push : CellMessage) (cell : Cell) (order : Order)
    (hc : db.cellById push.cell_id = some cell)
    (ho : db.orderByOptId cell.order_id = some order) :
    (push.is_sending = false →
      (process_cell_push sendOk now db push).db.cellById push.cell_id =
        some { cell with order_id := none, is_open := true }) ∧
    (push.is_sending = true →
      (process_cell_push sendOk now db push).db.cells = db.cells) := by
  have hdb := process_cell_push_db sendOk now db push cell order hc ho
  have hkc : cell.id = push.cell_id := findBy_key hc
  have hc2 : findBy Cell.id db.cells push.cell_id = some cell := hc
  constructor
  · intro hflag
    rw [hdb, hflag]
    simp only [if_neg (by simp : ¬(false = true))]
    show findBy Cell.id (replaceBy Cell.id db.cells _) push.cell_id = _
    exact findBy_replaceBy_self Cell.id db.cells _ push.cell_id hkc
      (by rw [hc2]; rfl)
  · intro hflag
    rw [hdb, hflag]
    rfl

/-- C2 witness: Scenario C frees cell 7, Scenario B leaves the cells
table untouched. -/
theorem cell_push_frees_cell_iff_not_sending_witness :
    (process_cell_push sendAllOk 5 dbB pushC).db.cellById pushC.cell_id =
      some { cell7 with order_id := none, is_open := true } ∧
    (process_cell_push sendAllOk 5 dbB pushB).db.cells = dbB.cells :=
  ⟨(cell_push_frees_cell_iff_not_sending sendAllOk 5 dbB pushC cell7 order99
      rfl rfl).1 rfl,
   (cell_push_frees_cell_iff_not_sending sendAllOk 5 dbB pushB cell7 order99
      rfl rfl).2 rfl⟩

/-- C3 counterexample: with all four rows present, when the send to the
receiver (chat 11) fails, the attempted-send list contains only the
receiver's send — the sender's chat 22 is never attempted — refuting the
claim that a receiver-send failure does not prevent the sender send. -/
theorem receiver_send_failure_blocks_sender_send :
    sendFailAt11 11 "Статус заявки №99 изменен на Готова к выдачи" = false ∧
    (process_cell_push sendFailAt11 5 dbB pushB).sends =
      [(11, "Статус заявки №99 изменен на Готова к выдачи")] ∧
    (process_cell_push sendFailAt11 5 dbB pushB).err =
      some (ProcErr.sendFailure 11 "Статус заявки №99 изменен на Готова к выдачи") ∧
    ¬(22 ∈ (process_cell_push sendFailAt11 5 dbB pushB).sends.map Prod.fst) := by
  refine ⟨rfl, rfl, rfl, ?_⟩
  decide

/-- C3 (amended): the two notification sends are strictly sequential and
fail fast: the receiver's send is attempted first; if it fails the
sender's send is not attempted and the failure escapes to the caller; if
it succeeds the sender's send is attempted, and a failure there escapes
to the caller. -/
theorem cell_push_sends_sequential_fail_fast
    (sendOk : Int → String → Bool) (now : Int) (db : DB)
    (push : CellMessage) (cell : Cell) (order : Order) (receiver sender : User)
    (msg : String)
    (hc : db.cellById push.cell_id = some cell)
    (ho : db.orderByOptId cell.order_id = some order)
    (hr : db.userById order.receiver_id = some receiver)
    (hs : db.userById order.sender_id = some sender)
    (hmsg : msg = statusMessage order.id (pyStrOfOpt (OrderStatus.get_str_by_id
      (if push.is_sending then OrderStatus.READY else OrderStatus.DONE)))) :
    (sendOk receiver.telegram_id msg = false →
      (process_cell_push sendOk now db push).sends =
        [(receiver.telegram_id, msg)] ∧
      (process_cell_push sendOk now db push).err =
        some (ProcErr.sendFailure receiver.telegram_id msg)) ∧
    (sendOk receiver.telegram_id msg = true →
      (process_cell_push sendOk now db push).sends =
        [(receiver.telegram_id, msg), (sender.telegram_id, msg)] ∧
      (sendOk sender.telegram_id msg = false →
        (process_cell_push sendOk now db push).err =
          some (ProcErr.sendFailure sender.telegram_id msg)) ∧
      (sendOk sender.telegram_id msg = true →
        (process_cell_push sendOk now db push).err = none)) := by
  subst hmsg
  constructor
  · intro hfail
    simp only [process_cell_push, hc, ho, hr, hs, hfail]
    exact ⟨rfl, rfl⟩
  · intro hok1
    simp only [process_cell_push, hc, ho, hr, hs, hok1, if_true]
    refine ⟨?_, ?_, ?_⟩
    · repeat' split
      all_goals rfl
    · intro hfail2
      simp [hfail2]
    · intro hok2
      simp [hok2]

/-- C3 witness: the fail-fast behavior at the concrete Scenario B data
with a send oracle failing on chat 11. -/
theorem cell_push_sends_sequential_fail_fast_witness :
    sendFailAt11 recvUser.telegram_id
      "Статус заявки №99 изменен на Готова к выдачи" = false ∧
    ((process_cell_push sendFailAt11 5 dbB pushB).sends =
      [(recvUser.telegram_id, "Статус заявки №99 изменен на Готова к выдачи")] ∧
    (process_cell_push sendFailAt11 5 dbB pushB).err =
      some (ProcErr.sendFailure recvUser.telegram_id
        "Статус заявки №99 изменен на Готова к выдачи")) :=
  ⟨rfl, (cell_push_sends_sequential_fail_fast sendFailAt11 5 dbB pushB cell7
    order99 recvUser sendUser "Статус заявки №99 изменен на Готова к выдачи"
    rfl rfl rfl rfl rfl).1 rfl⟩

/-- C4 counterexample: a well-formed cell message over an empty database
raises inside the processing block, and `message.process()` then rejects
the delivery (a negative acknowledgment without requeue) instead of
positively acknowledging it — refuting the claim that every outcome ends
in a positive acknowledgment. -/
theorem transition_error_rejected_not_acked :
    (process_message sendAllOk 0 dbEmpty bodyCellB).2 = Finalize.reject false ∧
    (process_message sendAllOk 0 dbEmpty bodyCellB).2 ≠ Finalize.ack :=
  ⟨rfl, by decide⟩

/-- C4 (amended): every delivered message is finalized exactly once.
Decode failures and validation failures are caught, so the block exits
normally and the message is positively acknowledged (as on success);
an error escaping dispatch/transition makes `message.process()` reject
the message without requeue — no path requeues. -/
theorem finalize_ack_or_reject_policy (sendOk : Int → String → Bool)
    (now : Int) (db : DB) (body : Body) :
    (body = Body.invalid → (process_message sendOk now db body).1.err = none ∧
      (process_message sendOk now db body).2 = Finalize.ack) ∧
    (∀ j e, body = Body.valid j → validate j = Except.error e →
      (process_message sendOk now db body).1.err = none ∧
      (process_message sendOk now db body).2 = Finalize.ack) ∧
    ((process_message sendOk now db body).2 =
      finalizeOf (process_message sendOk now db body).1) := by
  refine ⟨?_, ?_, ?_⟩
  · rintro rfl
    exact ⟨rfl, rfl⟩
  · rintro j e rfl hval
    simp [process_message, hval]
  · cases body with
    | invalid => rfl
    | valid j =>
      cases hv : validate j with
      | error e => simp [process_message, hv, finalizeOf]
      | ok p =>
        cases p with
        | basic bp => simp [process_message, hv]
        | cellMsg c => simp [process_message, hv]

/-- C4 witness: an undecodable body and a validation-failing body are
both positively acknowledged with no escaping error. -/
theorem finalize_ack_or_reject_policy_witness :
    ((process_message sendAllOk 0 dbB Body.invalid).1.err = none ∧
     (process_message sendAllOk 0 dbB Body.invalid).2 = Finalize.ack) ∧
    ((process_message sendAllOk 0 dbB (Body.valid (Json.obj []))).1.err = none ∧
     (process_message sendAllOk 0 dbB (Body.valid (Json.obj []))).2 =
       Finalize.ack) :=
  ⟨(finalize_ack_or_reject_policy sendAllOk 0 dbB Body.invalid).1 rfl,
   (finalize_ack_or_reject_policy sendAllOk 0 dbB
      (Body.valid (Json.obj []))).2.1 (Json.obj [])
     "telegram_user_id: field required" rfl rfl⟩

/-- C5: when the cell is absent, or present with a NULL `order_id`,
`process_cell_push` fails with the missing-row error (the attribute read
on the `None` fetch result), performs no send, and leaves the database
unchanged. -/
theorem cell_push_unassigned_cell_fails
    (sendOk : Int → String → Bool) (now : Int) (db : DB)
    (push : CellMessage) :
    (db.cellById push.cell_id = none →
      (process_cell_push sendOk now db push).err =
        some (ProcErr.attrOnNone "order_id") ∧
      (process_cell_push sendOk now db push).sends = [] ∧
      (process_cell_push sendOk now db push).db = db) ∧
    (∀ cell, db.cellById push.cell_id = some cell → cell.order_id = none →
      (process_cell_push sendOk now db push).err =
        some (ProcErr.attrOnNone "receiver_id") ∧
      (process_cell_push sendOk now db push).sends = [] ∧
      (process_cell_push sendOk now db push).db = db) := by
  constructor
  · intro hc
    simp [process_cell_push, hc]
  · intro cell hc hco
    have ho : db.orderByOptId cell.order_id = none := by rw [hco]; rfl
    simp [process_cell_push, hc, ho]

/-- C5 witness: Scenario D — cell 7 has no assigned order, the handling
fails and nothing is sent. -/
theorem cell_push_unassigned_cell_fails_witness :
    (process_cell_push sendAllOk 5 dbD pushB).err =
      some (ProcErr.attrOnNone "receiver_id") ∧
    (process_cell_push sendAllOk 5 dbD pushB).sends = [] ∧
    (process_cell_push sendAllOk 5 dbD pushB).db = dbD :=
  (cell_push_unassigned_cell_fails sendAllOk 5 dbD pushB).2 cell7Free rfl rfl

/-- C6 counterexample: a cell-flagged object with well-typed base fields
whose `cell_id` is the JSON string "7" (mistyped: not an integer) and
whose `is_sending` is the JSON integer 1 (mistyped: not a boolean) is
accepted by validation — pydantic's lax validators coerce both — and
processed as a `CellMessage`, refuting the claim that every such message
is rejected. -/
theorem mistyped_cell_fields_accepted_by_coercion :
    getKey fieldsCoerced "cell_id" = some (Json.str "7") ∧
    getKey fieldsCoerced "is_sending" = some (Json.int 1) ∧
    validate (Json.obj fieldsCoerced) =
      Except.ok (Push.cellMsg
        { telegram_user_id := 1, message := "x", is_cell_message := true,
          cell_id := 7, is_sending := true }) :=
  ⟨rfl, rfl, rfl⟩

/-- C6 (amended): a JSON object carrying `is_cell_message=true` with
well-typed base fields, in which `cell_id` is missing or its value fails
pydantic's lax integer validator, or `is_sending` is missing or its value
fails the lax boolean validator, is rejected outright by validation — it
is not downgraded to a `BasicPush`.  (A merely mistyped but coercible
value, such as `cell_id:"7"` or `is_sending:1`, is accepted and
coerced.) -/
theorem cell_message_invalid_fields_reject_whole
    (fields : List (String × Json)) (a : Int) (m : String)
    (ht : getKey fields "telegram_user_id" = some (Json.int a))
    (hm : getKey fields "message" = some (Json.str m))
    (hcm : getKey fields "is_cell_message" = some (Json.bool true))
    (hbad : (∃ e, reqInt (Json.obj fields) "cell_id" = Except.error e) ∨
            (∃ e, reqBool (Json.obj fields) "is_sending" = Except.error e)) :
    ∃ e, validate (Json.obj fields) = Except.error e := by
  have h1 : reqInt (Json.obj fields) "telegram_user_id" = Except.ok a := by
    simp only [reqInt, Json.getField, ht, pyIntOfJson?]
  have h2 : reqStr (Json.obj fields) "message" = Except.ok m := by
    simp only [reqStr, Json.getField, hm]
  have h3 : optBool (Json.obj fields) "is_cell_message" false = Except.ok true := by
    simp only [optBool, Json.getField, hcm, pyBoolOfJson?]
  have hbasic : BasicPush.parse_obj (Json.obj fields) =
      Except.ok { telegram_user_id := a, message := m, is_cell_message := true } := by
    simp only [BasicPush.parse_obj, h1, h2, h3]
  rcases hbad with ⟨e, hci⟩ | ⟨e, hsi⟩
  · refine ⟨e, ?_⟩
    simp only [validate, hbasic, if_true, CellMessage.parse_obj, h1, h2, h3, hci]
  · cases hci2 : reqInt (Json.obj fields) "cell_id" with
    | error e2 =>
      refine ⟨e2, ?_⟩
      simp only [validate, hbasic, if_true, CellMessage.parse_obj, h1, h2, h3,
        hci2]
    | ok ci =>
      refine ⟨e, ?_⟩
      simp only [validate, hbasic, if_true, CellMessage.parse_obj, h1, h2, h3,
        hci2, hsi]

/-- C6 witness: a cell-flagged object with valid base fields but no
`cell_id` is rejected, and so is one whose `is_sending` is a string no
boolean coercion accepts. -/
theorem cell_message_invalid_fields_reject_whole_witness :
    (∃ e, validate (Json.obj fieldsNoCellId) = Except.error e) ∧
    (∃ e, validate (Json.obj fieldsBadSending) = Except.error e) :=
  ⟨cell_message_invalid_fields_reject_whole fieldsNoCellId 1 "x" rfl rfl rfl
     (Or.inl ⟨"cell_id: field required", rfl⟩),
   cell_message_invalid_fields_reject_whole fieldsBadSending 1 "x" rfl rfl rfl
     (Or.inr ⟨"is_sending: value could not be parsed to a boolean", rfl⟩)⟩

/-- C7: a message validated as a `BasicPush` is dispatched as exactly one
send of `(telegram_user_id, message)` with no persistence reads and no
database change; a message validated as a `CellMessage` is delegated
entirely to the transition logic, whose effects are exactly the dispatch
result — no additional send of the original message text occurs. -/
theorem dispatch_basic_single_send_no_persistence
    (sendOk : Int → String → Bool) (now : Int) (db : DB) (j : Json) :
    (∀ p, validate j = Except.ok (Push.basic p) →
      p.is_cell_message = false ∧
      (process_message sendOk now db (Body.valid j)).1.sends =
        [(p.telegram_user_id, p.message)] ∧
      (process_message sendOk now db (Body.valid j)).1.db = db ∧
      (process_message sendOk now db (Body.valid j)).1.reads = []) ∧
    (∀ c, validate j = Except.ok (Push.cellMsg c) →
      (process_message sendOk now db (Body.valid j)).1 =
        process_cell_push sendOk now db c) := by
  constructor
  · intro p hval
    have hflag : p.is_cell_message = false := by
      cases hparse : BasicPush.parse_obj j with
      | error e => simp [validate, hparse] at hval
      | ok q =>
        by_cases hq : q.is_cell_message = true
        · cases hcm : CellMessage.parse_obj j with
          | error e => simp [validate, hparse, hq, hcm] at hval
          | ok c => simp [validate, hparse, hq, hcm] at hval
        · have hq2 : q.is_cell_message = false := by
            cases hqq : q.is_cell_message
            · rfl
            · exact absurd hqq hq
          simp [validate, hparse, hq2] at hval
          rw [← hval, hq2]
    refine ⟨hflag, ?_⟩
    simp only [process_message, hval, process_push]
    split
    · exact ⟨rfl, rfl, rfl⟩
    · exact ⟨rfl, rfl, rfl⟩
  · intro c hval
    simp only [process_message, hval]

/-- C7 witness: Scenario A — body `{"telegram_user_id":42,"message":"hi"}`
yields exactly one send of `(42, "hi")` and touches nothing else. -/
theorem dispatch_basic_single_send_no_persistence_witness :
    ({ telegram_user_id := 42, message := "hi", is_cell_message := false } :
      BasicPush).is_cell_message = false ∧
    (process_message sendAllOk 0 dbB (Body.valid (Json.obj fieldsBasic))).1.sends =
      [(42, "hi")] ∧
    (process_message sendAllOk 0 dbB (Body.valid (Json.obj fieldsBasic))).1.db =
      dbB ∧
    (process_message sendAllOk 0 dbB (Body.valid (Json.obj fieldsBasic))).1.reads =
      [] :=
  (dispatch_basic_single_send_no_persistence sendAllOk 0 dbB
    (Json.obj fieldsBasic)).1
    { telegram_user_id := 42, message := "hi", is_cell_message := false } rfl

/-- C8: `OrderStatus.get_str_by_id` returns the five exact display strings
on ids 1–5 and `none` on every other integer id. -/
theorem status_text_total_on_known_ids :
    (OrderStatus.get_str_by_id OrderStatus.NEW = some "Новая" ∧
     OrderStatus.get_str_by_id OrderStatus.PROCESSING = some "Обрабатывается" ∧
     OrderStatus.get_str_by_id OrderStatus.READY = some "Готова к выдачи" ∧
     OrderStatus.get_str_by_id OrderStatus.DONE = some "Выполнена" ∧
     OrderStatus.get_str_by_id OrderStatus.DECLINED = some "Отменена") ∧
    ∀ i : Int, i ≠ 1 → i ≠ 2 → i ≠ 3 → i ≠ 4 → i ≠ 5 →
      OrderStatus.get_str_by_id i = none := by
  refine ⟨⟨rfl, rfl, rfl, rfl, rfl⟩, ?_⟩
  intro i h1 h2 h3 h4 h5
  have b1 : (i == (1 : Int)) = false := beq_eq_false_iff_ne.mpr h1
  have b2 : (i == (2 : Int)) = false := beq_eq_false_iff_ne.mpr h2
  have b3 : (i == (3 : Int)) = false := beq_eq_false_iff_ne.mpr h3
  have b4 : (i == (4 : Int)) = false := beq_eq_false_iff_ne.mpr h4
  have b5 : (i == (5 : Int)) = false := beq_eq_false_iff_ne.mpr h5
  simp [OrderStatus.get_str_by_id, List.lookup, b1, b2, b3, b4, b5]

/-- C8 witness: the mapping is absent at id 7. -/
theorem status_text_total_on_known_ids_witness :
    OrderStatus.get_str_by_id 7 = none :=
  status_text_total_on_known_ids.2 7 (by decide) (by decide) (by decide)
    (by decide) (by decide)

/-- C9 counterexample: delivering `is_sending=true` for an order already
in READY with `status_changed_at` unset rewrites the order with the same
`status_id` (3) but a fresh `status_changed_at` — a write that sets
`status_changed_at` while leaving the `status_id` value unchanged,
refuting the claimed `iff`. -/
theorem status_changed_at_set_without_status_change :
    orderReady.status_id = OrderStatus.READY ∧
    orderReady.status_changed_at = none ∧
    (process_cell_push sendAllOk 5 dbReady pushB).db.orderById 99 =
      some { orderReady with status_changed_at := some 5 } :=
  ⟨rfl, rfl, rfl⟩

/-- C9 (amended): the single order write of the transition logic always
sets `status_id` and `status_changed_at` together, so every write that
modifies `status_id` also sets `status_changed_at`; but the write happens
even when the delivered status equals the current one, so
`status_changed_at` can be set without `status_id` changing value. -/
theorem order_write_always_sets_status_changed_at
    (sendOk : Int → String → Bool) (now : Int) (db : DB)
    (push : CellMessage) (cell : Cell) (order : Order)
    (hc : db.cellById push.cell_id = some cell)
    (ho : db.orderByOptId cell.order_id = some order) :
    (process_cell_push sendOk now db push).db.orderById order.id =
      some { order with
             status_id := if push.is_sending then OrderStatus.READY
                          else OrderStatus.DONE,
             status_changed_at := some now } := by
  have hdb := process_cell_push_db sendOk now db push cell order hc ho
  obtain ⟨hco, hsome⟩ := orderByOptId_some ho
  rw [hdb]
  have horders : (if push.is_sending then db
      else db.setCell { cell with order_id := none, is_open := true }).orders =
      db.orders := by
    cases push.is_sending <;> rfl
  show findBy Order.id (replaceBy Order.id _ _) order.id = _
  rw [horders]
  exact findBy_replaceBy_self Order.id db.orders _ order.id rfl hsome

/-- C9 witness: Scenario C writes DONE together with the new timestamp. -/
theorem order_write_always_sets_status_changed_at_witness :
    (process_cell_push sendAllOk 5 dbB pushC).db.orderById order99.id =
      some { order99 with status_id := OrderStatus.DONE,
                          status_changed_at := some 5 } :=
  order_write_always_sets_status_changed_at sendAllOk 5 dbB pushC cell7 order99
    rfl rfl

/-- C10: `DbController.update` keeps the attribute set unchanged (unknown
keyword names are skipped silently, no error), leaves every attribute not
named in the call unchanged, and gives each named existing attribute the
value passed for it. -/
theorem db_update_ignores_unknown_keys_frames_rest {V : Type}
    (inst kwargs : List (String × V)) :
    ((DbController.update inst kwargs).map Prod.fst = inst.map Prod.fst) ∧
    (∀ f, f ∉ kwargs.map Prod.fst →
      (DbController.update inst kwargs).lookup f = inst.lookup f) ∧
    (∀ f v, (kwargs.map Prod.fst).Nodup → (f, v) ∈ kwargs →
      f ∈ inst.map Prod.fst →
      (DbController.update inst kwargs).lookup f = some v) :=
  ⟨update_keys kwargs inst,
   fun f h => update_lookup_of_not_mem kwargs inst f h,
   fun f v hnd hmem hin => update_lookup_of_mem kwargs inst f v hnd hmem hin⟩

/-- C10 witness: updating `{a:1, b:2}` with `b:=9` and the unknown key
`zzz` keeps the attribute set, keeps `a`, and sets `b` to 9. -/
theorem db_update_ignores_unknown_keys_frames_rest_witness :
    ((DbController.update [("a", 1), ("b", 2)] [("b", 9), ("zzz", 7)]).map
      Prod.fst = ([("a", 1), ("b", 2)] : List (String × Nat)).map Prod.fst) ∧
    ((DbController.update [("a", 1), ("b", 2)] [("b", 9), ("zzz", 7)]).lookup "a" =
      ([("a", 1), ("b", 2)] : List (String × Nat)).lookup "a") ∧
    ((DbController.update [("a", 1), ("b", 2)] [("b", 9), ("zzz", 7)]).lookup "b" =
      some 9) :=
  ⟨(db_update_ignores_unknown_keys_frames_rest [("a", 1), ("b", 2)]
      [("b", 9), ("zzz", 7)]).1,
   (db_update_ignores_unknown_keys_frames_rest [("a", 1), ("b", 2)]
      [("b", 9), ("zzz", 7)]).2.1 "a" (by decide),
   (db_update_ignores_unknown_keys_frames_rest [("a", 1), ("b", 2)]
      [("b", 9), ("zzz", 7)]).2.2 "b" 9 (by decide) (by decide) (by decide)⟩

end AutodocPush
